import Mathlib

/-!
Verification of the redundant three-site WAN simulation
(src/router-static-routing.cc).

The program builds a triangle topology HQ (n0), Branch (n1), DC (n2),
installs one static route per node, runs three UDP echo clients, and
schedules a failure of the HQ-DC link at t = 4 s followed by a recovery
at t = 8 s.  Virtual time is embedded as a natural number of
milliseconds, so t = 4 s is 4000 and the 2.5 s client interval is 2500.
-/

/-- The two devices attached to one point-to-point channel
(GetPointToPointDevice 0 and 1 in the source). -/
inductive Endpoint
  | first
  | second
deriving DecidableEq

/-- State of one point-to-point channel: the MTU of each of its two
devices.  The program emulates link failure by forcing both MTUs to 0. -/
structure ChannelState where
  mtu0 : Nat
  mtu1 : Nat
deriving DecidableEq

/-- Default MTU of the devices built by PointToPointHelper. -/
def defaultMtu : Nat := 1500

/-- Embedding of DisableLink (source lines 38-60): the function receives
one device of the link; when the dynamic cast to PointToPointNetDevice
succeeds it fetches the channel and sets the MTU of BOTH channel devices
to 0, otherwise it does nothing.  The endpoint argument records which
device was passed; the mutation does not depend on it. -/
def DisableLink (isP2P : Bool) (_dev : Endpoint) (ch : ChannelState) : ChannelState :=
  if isP2P then { mtu0 := 0, mtu1 := 0 } else ch

/-- Embedding of EnableLink (source lines 62-84): when the dynamic cast
succeeds it restores the MTU of BOTH channel devices to the fixed
constant 1500, otherwise it does nothing. -/
def EnableLink (isP2P : Bool) (_dev : Endpoint) (ch : ChannelState) : ChannelState :=
  if isP2P then { mtu0 := defaultMtu, mtu1 := defaultMtu } else ch

/-- A scheduled link-state action of the program. -/
inductive LinkAction
  | disable
  | enable
deriving DecidableEq

/-- A scheduled call to DisableLink or EnableLink on one device of the
HQ-DC link (link3). -/
structure LinkEvent where
  time : Nat
  action : LinkAction
  target : Endpoint
deriving DecidableEq

/-- The failure-injection schedule of main (source lines 343-350), in
the order the four Simulator Schedule calls are issued: DisableLink on
both ends of link3 at t = 4 s, EnableLink on both ends at t = 8 s. -/
def linkEvents : List LinkEvent :=
  [⟨4000, LinkAction.disable, Endpoint.first⟩,
   ⟨4000, LinkAction.disable, Endpoint.second⟩,
   ⟨8000, LinkAction.enable, Endpoint.first⟩,
   ⟨8000, LinkAction.enable, Endpoint.second⟩]

/-- Channel state of the HQ-DC link before any scheduled event. -/
def initialChannel : ChannelState := { mtu0 := defaultMtu, mtu1 := defaultMtu }

/-- Executing one scheduled link event.  The devices of link3 are built
by PointToPointHelper, so the dynamic cast inside DisableLink and
EnableLink succeeds (isP2P is true). -/
def applyEvent (ch : ChannelState) (e : LinkEvent) : ChannelState :=
  match e.action with
  | LinkAction.disable => DisableLink true e.target ch
  | LinkAction.enable => EnableLink true e.target ch

/-- Folds the events whose timestamp is at or before t over the channel
state, in schedule order (the simulator executes events in timestamp
order with FIFO tie-break, and linkEvents is listed in that order). -/
def applyUpTo (t : Nat) : List LinkEvent → ChannelState → ChannelState
  | [], ch => ch
  | e :: rest, ch => applyUpTo t rest (if e.time ≤ t then applyEvent ch e else ch)

/-- Channel state of the HQ-DC link observed at virtual time t: an
observation at or after an event timestamp sees the effect of that
event. -/
def stateAt (t : Nat) : ChannelState := applyUpTo t linkEvents initialChannel

/-- Failure time of the HQ-DC link (source line 345). -/
def failureTime : Nat := 4000

/-- Recovery time of the HQ-DC link (source line 349). -/
def recoveryTime : Nat := 8000

lemma stateAt_before (t : Nat) (h : t < 4000) : stateAt t = initialChannel := by
  have h4 : ¬ (4000 ≤ t) := by omega
  have h8 : ¬ (8000 ≤ t) := by omega
  simp [stateAt, linkEvents, applyUpTo, h4, h8]

lemma stateAt_down (t : Nat) (h1 : 4000 ≤ t) (h2 : t < 8000) :
    stateAt t = { mtu0 := 0, mtu1 := 0 } := by
  have h8 : ¬ (8000 ≤ t) := by omega
  simp [stateAt, linkEvents, applyUpTo, h1, h8, applyEvent, DisableLink]

lemma stateAt_after (t : Nat) (h : 8000 ≤ t) : stateAt t = initialChannel := by
  have h4 : (4000 ≤ t) := by omega
  simp [stateAt, linkEvents, applyUpTo, h4, h, applyEvent, DisableLink, EnableLink,
    initialChannel]

/-- The possible outcomes of one forwarding attempt. -/
inductive ForwardOutcome
  | delivered
  | noRouteToHost
  | linkUnavailable
  | ttlExceeded
deriving DecidableEq

/-- Modelled from the spec: the forwarding path of ns-3 is not part of
this repository, so forwarding across the HQ-DC link follows section 4.3
step 4 of the spec: the route exists (10.1.3.2 is directly connected on
the HQ-DC subnet), and the attempt fails with LinkUnavailable exactly
when the egress link is DOWN, i.e. when the program has forced the
channel device MTUs to 0; otherwise it is delivered. -/
def forwardHQDC (t : Nat) : ForwardOutcome :=
  if (stateAt t).mtu0 = 0 ∨ (stateAt t).mtu1 = 0 then ForwardOutcome.linkUnavailable
  else ForwardOutcome.delivered

/-- Configuration of one UdpEchoClient as installed by main. -/
structure EchoClientConfig where
  startTime : Nat
  interval : Nat
  stopTime : Nat
  maxPackets : Nat
  packetSize : Nat
deriving DecidableEq

/-- Client 1, HQ to Branch (source lines 294-301). -/
def echoClient1 : EchoClientConfig :=
  { startTime := 2000, interval := 2000, stopTime := 11000, maxPackets := 4, packetSize := 1024 }

/-- Client 2, HQ to DC over the direct HQ-DC link
(source lines 304-312). -/
def echoClient2 : EchoClientConfig :=
  { startTime := 3000, interval := 2000, stopTime := 11000, maxPackets := 4, packetSize := 1024 }

/-- Client 3, Branch to DC (source lines 315-323). -/
def echoClient3 : EchoClientConfig :=
  { startTime := 4000, interval := 2500, stopTime := 11000, maxPackets := 4, packetSize := 512 }

/-- Scheduled send time of request k (0-based): the client sends its
first request at its start time and each further request one interval
later. -/
def scheduledSendTime (c : EchoClientConfig) (k : Nat) : Nat :=
  c.startTime + k * c.interval

/-- Modelled from the spec: the echo-client run is bounded by its
explicit stop time, so request k is actually sent exactly when it is
among the first maxPackets requests and its scheduled send time does not
fall after the stop time. -/
def isSent (c : EchoClientConfig) (k : Nat) : Bool :=
  decide (k < c.maxPackets) && decide (scheduledSendTime c k ≤ c.stopTime)

/-- The list of send times a client actually performs. -/
def sendTimes (c : EchoClientConfig) : List Nat :=
  ((List.range c.maxPackets).filter (fun k => isSent c k)).map (scheduledSendTime c)

/-- Forwarding outcome of request k of the HQ-to-DC client: the request
is routed over the direct HQ-DC link at its send time. -/
def echoClient2Outcome (k : Nat) : ForwardOutcome :=
  forwardHQDC (scheduledSendTime echoClient2 k)

/-- One row of a static routing table: AddNetworkRouteTo arguments. -/
structure RouteEntry where
  network : Nat
  mask : Nat
  nextHop : Nat
  iface : Nat
deriving DecidableEq

/-- Dotted-quad IPv4 address as a 32-bit natural number. -/
def ipv4 (a b c d : Nat) : Nat := ((a * 256 + b) * 256 + c) * 256 + d

/-- Static routing table of HQ (source lines 184-193): one route to the
Branch-DC network 10.1.2.0/30 with next hop 10.1.3.2 out of interface
2. -/
def staticRoutingHQ : List RouteEntry :=
  [{ network := ipv4 10 1 2 0, mask := ipv4 255 255 255 252,
     nextHop := ipv4 10 1 3 2, iface := 2 }]

/-- Static routing table of Branch (source lines 203-212). -/
def staticRoutingBranch : List RouteEntry :=
  [{ network := ipv4 10 1 3 0, mask := ipv4 255 255 255 252,
     nextHop := ipv4 10 1 1 1, iface := 1 }]

/-- Static routing table of DC (source lines 222-231). -/
def staticRoutingDC : List RouteEntry :=
  [{ network := ipv4 10 1 1 0, mask := ipv4 255 255 255 252,
     nextHop := ipv4 10 1 3 1, iface := 2 }]

/-- Modelled from the spec: PrintRoutingTableAllAt of ns-3 is not part
of this repository; per the spec the dump at a given time lists every
installed static entry of every node, and static entries are installed
once at setup and never mutated during the run, so the dump is the same
at every time. -/
def routingTableDumpAt (_t : Nat) : List (List RouteEntry) :=
  [staticRoutingHQ, staticRoutingBranch, staticRoutingDC]

/-- Does a static entry match a destination address: the destination
masked with the entry mask equals the entry network. -/
def routeMatches (e : RouteEntry) (dest : Nat) : Bool :=
  dest &&& e.mask == e.network

/-- Modelled from the spec: the static-route lookup of ns-3 is not part
of this repository; per spec section 4.3 the lookup scans the static
entries of the node, keeps only those whose network contains the
destination, picks the one with the longest (numerically largest,
i.e. most specific) mask, and on equal masks the earliest-installed
entry wins.  The table list is in installation order. -/
def lookupStatic (dest : Nat) : List RouteEntry → Option RouteEntry
  | [] => none
  | e :: rest =>
    match lookupStatic dest rest with
    | none => if routeMatches e dest then some e else none
    | some b =>
      if routeMatches e dest then
        (if e.mask < b.mask then some b else some e)
      else some b

/-- The /24 entry of the longest-prefix example in the spec: an
overlapping coarser route to 10.1.2.0/24. -/
def routeOverlap24 : RouteEntry :=
  { network := ipv4 10 1 2 0, mask := ipv4 255 255 255 0,
    nextHop := ipv4 10 1 1 2, iface := 1 }

/-- The /30 entry of the longest-prefix example: the specific route HQ
installs to 10.1.2.0/30. -/
def routeOverlap30 : RouteEntry :=
  { network := ipv4 10 1 2 0, mask := ipv4 255 255 255 252,
    nextHop := ipv4 10 1 3 2, iface := 2 }

/-- A destination matched by both overlapping entries. -/
def destOverlap : Nat := ipv4 10 1 2 2

lemma lookupStatic_none {dest : Nat} :
    ∀ {l : List RouteEntry}, lookupStatic dest l = none →
      ∀ e ∈ l, routeMatches e dest = false := by
  intro l
  induction l with
  | nil => intro _ e he; cases he
  | cons a rest ih =>
    intro h e he
    cases hrest : lookupStatic dest rest with
    | none =>
      simp only [lookupStatic, hrest] at h
      cases hm : routeMatches a dest with
      | true => rw [hm] at h; simp at h
      | false =>
        rcases List.mem_cons.mp he with rfl | he2
        · exact hm
        · exact ih hrest e he2
    | some b =>
      simp only [lookupStatic, hrest] at h
      by_cases hm : routeMatches a dest = true
      · rw [if_pos hm] at h
        by_cases hlt : a.mask < b.mask
        · rw [if_pos hlt] at h; simp at h
        · rw [if_neg hlt] at h; simp at h
      · rw [if_neg hm] at h; simp at h

lemma lookupStatic_sound {dest : Nat} :
    ∀ {l : List RouteEntry} {e : RouteEntry}, lookupStatic dest l = some e →
      e ∈ l ∧ routeMatches e dest = true ∧
        ∀ x ∈ l, routeMatches x dest = true → x.mask ≤ e.mask := by
  intro l
  induction l with
  | nil => intro e h; simp [lookupStatic] at h
  | cons a rest ih =>
    intro e h
    cases hrest : lookupStatic dest rest with
    | none =>
      simp only [lookupStatic, hrest] at h
      cases hm : routeMatches a dest with
      | false => rw [hm] at h; simp at h
      | true =>
        rw [hm] at h
        simp at h
        subst h
        refine ⟨List.mem_cons_self a rest, hm, ?_⟩
        intro x hx hmx
        rcases List.mem_cons.mp hx with rfl | hx2
        · exact Nat.le_refl _
        · rw [lookupStatic_none hrest x hx2] at hmx; cases hmx
    | some b =>
      obtain ⟨hbmem, hbmatch, hbmax⟩ := ih hrest
      simp only [lookupStatic, hrest] at h
      cases hm : routeMatches a dest with
      | false =>
        rw [hm] at h
        simp at h
        subst h
        refine ⟨List.mem_cons_of_mem a hbmem, hbmatch, ?_⟩
        intro x hx hmx
        rcases List.mem_cons.mp hx with rfl | hx2
        · rw [hm] at hmx; cases hmx
        · exact hbmax x hx2 hmx
      | true =>
        rw [hm] at h
        by_cases hlt : a.mask < b.mask
        · rw [if_pos hlt] at h
          simp at h
          subst h
          refine ⟨List.mem_cons_of_mem a hbmem, hbmatch, ?_⟩
          intro x hx hmx
          rcases List.mem_cons.mp hx with rfl | hx2
          · exact Nat.le_of_lt hlt
          · exact hbmax x hx2 hmx
        · rw [if_neg hlt] at h
          simp at h
          subst h
          refine ⟨List.mem_cons_self a rest, hm, ?_⟩
          intro x hx hmx
          rcases List.mem_cons.mp hx with rfl | hx2
          · exact Nat.le_refl _
          · exact Nat.le_trans (hbmax x hx2 hmx) (Nat.le_of_not_lt hlt)

lemma lookupStatic_earliest {dest : Nat} :
    ∀ (l₁ : List RouteEntry) {e : RouteEntry} {l₂ : List RouteEntry},
      routeMatches e dest = true →
      (∀ x ∈ l₁, routeMatches x dest = true → x.mask < e.mask) →
      (∀ x ∈ l₂, routeMatches x dest = true → x.mask ≤ e.mask) →
      lookupStatic dest (l₁ ++ e :: l₂) = some e := by
  intro l₁
  induction l₁ with
  | nil =>
    intro e l₂ hm _ h2
    rw [List.nil_append]
    cases hrest : lookupStatic dest l₂ with
    | none => simp [lookupStatic, hrest, hm]
    | some b =>
      obtain ⟨hbmem, hbmatch, _⟩ := lookupStatic_sound hrest
      have hble : b.mask ≤ e.mask := h2 b hbmem hbmatch
      simp only [lookupStatic, hrest]
      rw [hm]
      simp only [if_true]
      rw [if_neg (by omega)]
  | cons a l₁ ih =>
    intro e l₂ hm h1 h2
    have hstep : lookupStatic dest (l₁ ++ e :: l₂) = some e :=
      ih hm (fun x hx => h1 x (List.mem_cons_of_mem a hx)) h2
    rw [List.cons_append]
    simp only [lookupStatic, hstep]
    cases hma : routeMatches a dest with
    | false => simp
    | true =>
      have hlt : a.mask < e.mask := h1 a (List.mem_cons_self a l₁) hma
      simp [if_pos hlt]

/-- C9: DisableLink applied to either endpoint device of the
point-to-point link disables both channel devices (forces both MTUs to
0), the result does not depend on which endpoint it was applied to, and
a second application to the other endpoint of the already-disabled link
changes nothing. -/
theorem c9_disable_either_endpoint (e1 e2 : Endpoint) (ch : ChannelState) :
    (DisableLink true e1 ch).mtu0 = 0 ∧ (DisableLink true e1 ch).mtu1 = 0 ∧
    DisableLink true e1 ch = DisableLink true e2 ch ∧
    DisableLink true e2 (DisableLink true e1 ch) = DisableLink true e1 ch :=
  ⟨rfl, rfl, rfl, rfl⟩

/-- C10: EnableLink restores both channel devices to the fixed constant
MTU 1500 rather than a saved pre-failure value, so DisableLink followed
by EnableLink leaves a device MTU (and the whole channel) unchanged
exactly when the MTU before the failure was 1500. -/
theorem c10_enable_restores_constant (e1 e2 : Endpoint) (ch : ChannelState) :
    EnableLink true e1 ch = { mtu0 := 1500, mtu1 := 1500 } ∧
    ((EnableLink true e2 (DisableLink true e1 ch)).mtu0 = ch.mtu0 ↔ ch.mtu0 = 1500) ∧
    ((EnableLink true e2 (DisableLink true e1 ch)).mtu1 = ch.mtu1 ↔ ch.mtu1 = 1500) ∧
    (EnableLink true e2 (DisableLink true e1 ch) = ch ↔
      (ch.mtu0 = 1500 ∧ ch.mtu1 = 1500)) := by
  obtain ⟨m0, m1⟩ := ch
  refine ⟨rfl, ?_, ?_, ?_⟩ <;>
    simp [EnableLink, DisableLink, defaultMtu, eq_comm]

/-- C4: at every virtual time the two endpoint devices of the HQ-DC
link have the same up/down state: the channel is either fully up (both
MTUs 1500) or fully down (both MTUs 0), and one MTU is 0 exactly when
the other is. -/
theorem c4_endpoints_move_together (t : Nat) :
    (stateAt t = initialChannel ∨ stateAt t = { mtu0 := 0, mtu1 := 0 }) ∧
    ((stateAt t).mtu0 = 0 ↔ (stateAt t).mtu1 = 0) := by
  rcases Nat.lt_or_ge t 4000 with h | h
  · rw [stateAt_before t h]
    exact ⟨Or.inl rfl, by simp [initialChannel, defaultMtu]⟩
  · rcases Nat.lt_or_ge t 8000 with h2 | h2
    · rw [stateAt_down t h h2]
      exact ⟨Or.inr rfl, by simp⟩
    · rw [stateAt_after t h2]
      exact ⟨Or.inl rfl, by simp [initialChannel, defaultMtu]⟩

/-- C2: forwarding across the HQ-DC link succeeds strictly before the
failure time, fails with LinkUnavailable on the whole window from the
failure time inclusive to the recovery time exclusive, and succeeds
again from the recovery time on; the transition is exact at both
boundary timestamps. -/
theorem c2_forwarding_follows_window (t : Nat) :
    (t < failureTime → forwardHQDC t = ForwardOutcome.delivered) ∧
    (failureTime ≤ t → t < recoveryTime → forwardHQDC t = ForwardOutcome.linkUnavailable) ∧
    (recoveryTime ≤ t → forwardHQDC t = ForwardOutcome.delivered) := by
  refine ⟨fun h => ?_, fun h1 h2 => ?_, fun h => ?_⟩
  · simp only [forwardHQDC, stateAt_before t h]
    simp [initialChannel, defaultMtu]
  · simp only [forwardHQDC, stateAt_down t h1 h2]
    simp
  · simp only [forwardHQDC, stateAt_after t h]
    simp [initialChannel, defaultMtu]

/-- Witness for C2 at the boundary timestamps. -/
theorem c2_witness :
    forwardHQDC 0 = ForwardOutcome.delivered ∧
    forwardHQDC 3999 = ForwardOutcome.delivered ∧
    forwardHQDC 4000 = ForwardOutcome.linkUnavailable ∧
    forwardHQDC 7999 = ForwardOutcome.linkUnavailable ∧
    forwardHQDC 8000 = ForwardOutcome.delivered :=
  ⟨(c2_forwarding_follows_window 0).1 (by decide),
   (c2_forwarding_follows_window 3999).1 (by decide),
   (c2_forwarding_follows_window 4000).2.1 (by decide) (by decide),
   (c2_forwarding_follows_window 7999).2.1 (by decide) (by decide),
   (c2_forwarding_follows_window 8000).2.2 (by decide)⟩

/-- C1 counterexample: the HQ-to-DC client also loses its second
request.  That request is sent at t = 5 s, which lies inside the link
DOWN window [4 s, 8 s), so it is dropped with LinkUnavailable, refuting
the claim that packet 3 at t = 7 s is the only dropped request of this
flow. -/
theorem c1_counterexample :
    isSent echoClient2 1 = true ∧
    scheduledSendTime echoClient2 1 = 5000 ∧
    echoClient2Outcome 1 = ForwardOutcome.linkUnavailable ∧
    ForwardOutcome.linkUnavailable ≠ ForwardOutcome.delivered := by decide

/-- C1 amended: the HQ-to-DC client sends its 4 requests at
t = 3, 5, 7, 9 s; the requests at t = 5 s and t = 7 s both fall inside
the link DOWN window [4 s, 8 s) and are dropped with LinkUnavailable,
while the requests at t = 3 s and t = 9 s succeed. -/
theorem c1_amended_scenarioA :
    sendTimes echoClient2 = [3000, 5000, 7000, 9000] ∧
    (List.range 4).map echoClient2Outcome =
      [ForwardOutcome.delivered, ForwardOutcome.linkUnavailable,
       ForwardOutcome.linkUnavailable, ForwardOutcome.delivered] := by decide

/-- C3: a request whose scheduled send time falls after the stop time
of its client is not sent; the Branch-to-DC client therefore sends only
at t = 4, 6.5 and 9 s, and its fourth request, due at t = 11.5 s after
the stop at t = 11 s, is never sent. -/
theorem c3_stop_time_bounds_run :
    (∀ (c : EchoClientConfig) (k : Nat),
        c.stopTime < scheduledSendTime c k → isSent c k = false) ∧
    sendTimes echoClient3 = [4000, 6500, 9000] ∧
    scheduledSendTime echoClient3 3 = 11500 ∧
    isSent echoClient3 3 = false := by
  refine ⟨?_, by decide, by decide, by decide⟩
  intro c k h
  have hn : ¬ (scheduledSendTime c k ≤ c.stopTime) := by omega
  simp [isSent, hn]

/-- Witness for C3 at the fourth request of the Branch-to-DC client. -/
theorem c3_witness :
    echoClient3.stopTime < scheduledSendTime echoClient3 3 ∧
    isSent echoClient3 3 = false :=
  ⟨by decide, c3_stop_time_bounds_run.1 echoClient3 3 (by decide)⟩

/-- C5: the static-route lookup returns an installed entry that matches
the destination and carries the longest mask among all matching entries;
an entry beats every strictly-less-specific earlier entry and every
at-most-as-specific later entry (earliest-installed wins ties); and on
the two overlapping /24 and /30 entries both matching destOverlap the
/30 entry is selected, in either installation order. -/
theorem c5_longest_prefix_match :
    (∀ (dest : Nat) (l : List RouteEntry) (e : RouteEntry),
        lookupStatic dest l = some e →
        e ∈ l ∧ routeMatches e dest = true ∧
          ∀ x ∈ l, routeMatches x dest = true → x.mask ≤ e.mask) ∧
    (∀ (dest : Nat) (l₁ : List RouteEntry) (e : RouteEntry) (l₂ : List RouteEntry),
        routeMatches e dest = true →
        (∀ x ∈ l₁, routeMatches x dest = true → x.mask < e.mask) →
        (∀ x ∈ l₂, routeMatches x dest = true → x.mask ≤ e.mask) →
        lookupStatic dest (l₁ ++ e :: l₂) = some e) ∧
    routeMatches routeOverlap24 destOverlap = true ∧
    routeMatches routeOverlap30 destOverlap = true ∧
    lookupStatic destOverlap [routeOverlap24, routeOverlap30] = some routeOverlap30 ∧
    lookupStatic destOverlap [routeOverlap30, routeOverlap24] = some routeOverlap30 :=
  ⟨fun _ _ _ h => lookupStatic_sound h,
   fun _ l₁ _ _ hm h1 h2 => lookupStatic_earliest l₁ hm h1 h2,
   by decide, by decide, by decide, by decide⟩

/-- Witness for C5 on the concrete overlapping /24 and /30 entries. -/
theorem c5_witness :
    routeOverlap24.mask ≤ routeOverlap30.mask ∧
    lookupStatic destOverlap ([routeOverlap24] ++ routeOverlap30 :: []) = some routeOverlap30 :=
  ⟨(c5_longest_prefix_match.1 destOverlap [routeOverlap24, routeOverlap30] routeOverlap30
      (by decide)).2.2 routeOverlap24 (by decide) (by decide),
   c5_longest_prefix_match.2.1 destOverlap [routeOverlap24] routeOverlap30 []
      (by decide) (by decide) (by decide)⟩

/-- C6: the routing-table dump requested at t = 1 s lists HQ first, and
the table of HQ holds the installed static entry for the Branch-DC
subnet 10.1.2.0/30 with next hop 10.1.3.2 out of interface 2. -/
theorem c6_dump_lists_static_route :
    (routingTableDumpAt 1000).head? = some staticRoutingHQ ∧
    ({ network := ipv4 10 1 2 0, mask := ipv4 255 255 255 252,
       nextHop := ipv4 10 1 3 2, iface := 2 } : RouteEntry) ∈ staticRoutingHQ := by decide

/-- Modelled from the spec: a pending timestamped action of the event
queue.  The seq field is the stable insertion sequence number the
scheduler assigns in the order schedule calls are issued. -/
structure ScheduledEvent (α : Type) where
  time : Nat
  seq : Nat
  payload : α
deriving DecidableEq

/-- Strict execution precedence between two scheduled events: earlier
timestamp first, and among equal timestamps the earlier insertion
sequence number first (FIFO tie-break). -/
def EventBefore {α : Type} (a b : ScheduledEvent α) : Prop :=
  a.time < b.time ∨ (a.time = b.time ∧ a.seq < b.seq)

/-- Non-strict execution precedence, used by the executable sort. -/
def EventLe {α : Type} (a b : ScheduledEvent α) : Prop :=
  a.time < b.time ∨ (a.time = b.time ∧ a.seq ≤ b.seq)

instance {α : Type} : DecidableRel (@EventBefore α) := fun a b => by
  unfold EventBefore; infer_instance

instance {α : Type} : DecidableRel (@EventLe α) := fun a b => by
  unfold EventLe; infer_instance

instance {α : Type} : IsTotal (ScheduledEvent α) EventLe :=
  ⟨by intro a b; unfold EventLe; omega⟩

instance {α : Type} : IsTrans (ScheduledEvent α) EventLe :=
  ⟨by intro a b c hab hbc; unfold EventLe at hab hbc ⊢; omega⟩

instance {α : Type} : IsAntisymm (ScheduledEvent α) EventBefore :=
  ⟨by intro a b hab hba; exfalso; unfold EventBefore at hab hba; omega⟩

/-- A list is an execution order of a schedule when it executes exactly
the scheduled events, in non-decreasing timestamp order with FIFO
tie-break among equal timestamps. -/
def IsExecutionOrder {α : Type} (sched exec : List (ScheduledEvent α)) : Prop :=
  exec.Perm sched ∧ exec.Sorted EventBefore

/-- The executable scheduler order: stable sort of the schedule by
timestamp then insertion sequence. -/
def executionOrder {α : Type} (sched : List (ScheduledEvent α)) : List (ScheduledEvent α) :=
  List.insertionSort EventLe sched

lemma sorted_eventBefore_of_le_of_nodup {α : Type} {l : List (ScheduledEvent α)}
    (hle : l.Sorted EventLe) (hnd : (l.map ScheduledEvent.seq).Nodup) :
    l.Sorted EventBefore := by
  have hne : l.Pairwise (fun a b : ScheduledEvent α => a.seq ≠ b.seq) :=
    List.pairwise_map.mp hnd
  exact (hle.and hne).imp (by
    intro a b hab
    obtain ⟨h1, h2⟩ := hab
    unfold EventLe at h1
    unfold EventBefore
    omega)

/-- C7: the simulation is deterministic.  Any two execution orders of
the same schedule are equal, hence any two runs produce identical
sequences of executed events (forwarding outcomes and link-state
transitions alike); and when the insertion sequence numbers are
distinct, the stable timestamp sort of the schedule is such an
execution order, so one exists. -/
theorem c7_deterministic_execution :
    (∀ (α : Type) (sched exec1 exec2 : List (ScheduledEvent α)),
        IsExecutionOrder sched exec1 → IsExecutionOrder sched exec2 →
        exec1 = exec2 ∧ exec1.map ScheduledEvent.payload = exec2.map ScheduledEvent.payload) ∧
    (∀ (α : Type) (sched : List (ScheduledEvent α)),
        (sched.map ScheduledEvent.seq).Nodup →
        IsExecutionOrder sched (executionOrder sched)) := by
  constructor
  · intro α sched exec1 exec2 h1 h2
    obtain ⟨hp1, hs1⟩ := h1
    obtain ⟨hp2, hs2⟩ := h2
    have heq : exec1 = exec2 :=
      List.eq_of_perm_of_sorted (hp1.trans hp2.symm) hs1 hs2
    exact ⟨heq, by rw [heq]⟩
  · intro α sched hnd
    have hperm : executionOrder sched |>.Perm sched :=
      List.perm_insertionSort EventLe sched
    have hle : (executionOrder sched).Sorted EventLe :=
      List.sorted_insertionSort EventLe sched
    have hnd2 : ((executionOrder sched).map ScheduledEvent.seq).Nodup :=
      ((hperm.map ScheduledEvent.seq).nodup_iff).mpr hnd
    exact ⟨hperm, sorted_eventBefore_of_le_of_nodup hle hnd2⟩

/-- The failure-injection schedule of main as scheduler events: the
four Simulator Schedule calls in issue order, timestamps 4 s, 4 s,
8 s, 8 s. -/
def mainLinkSchedule : List (ScheduledEvent LinkAction) :=
  [⟨4000, 0, LinkAction.disable⟩, ⟨4000, 1, LinkAction.disable⟩,
   ⟨8000, 2, LinkAction.enable⟩, ⟨8000, 3, LinkAction.enable⟩]

/-- Witness for C7 on the concrete schedule of main. -/
theorem c7_witness : executionOrder mainLinkSchedule = mainLinkSchedule :=
  ((c7_deterministic_execution.1 LinkAction mainLinkSchedule
      (executionOrder mainLinkSchedule) mainLinkSchedule
      (c7_deterministic_execution.2 LinkAction mainLinkSchedule (by decide))
      ⟨List.Perm.refl mainLinkSchedule, by decide⟩)).1

/-- The fatal error taxonomy of the scheduler. -/
inductive SimError
  | SchedulingViolation
deriving DecidableEq

/-- Modelled from the spec: the state of the scheduler, with the
current virtual clock, the next insertion sequence number and the
pending queue. -/
structure SchedState (α : Type) where
  clock : Nat
  nextSeq : Nat
  queue : List (ScheduledEvent α)
deriving DecidableEq

/-- Modelled from the spec: schedule(time, action) enqueues an action
at a virtual time.  Scheduling strictly in the past relative to the
virtual clock is a SchedulingViolation and fails fast; otherwise the
action is appended with a fresh insertion sequence number. -/
def schedule {α : Type} (s : SchedState α) (t : Nat) (a : α) :
    Except SimError (SchedState α) :=
  if t < s.clock then Except.error SimError.SchedulingViolation
  else Except.ok ⟨s.clock, s.nextSeq + 1, s.queue ++ [⟨t, s.nextSeq, a⟩]⟩

/-- Modelled from the spec: issuing a list of schedule requests in
order; a SchedulingViolation is fatal, aborting the whole run with the
remaining requests never attempted (no retry). -/
def scheduleAll {α : Type} (s : SchedState α) :
    List (Nat × α) → Except SimError (SchedState α)
  | [] => Except.ok s
  | r :: rest =>
    match schedule s r.1 r.2 with
    | Except.error e => Except.error e
    | Except.ok s2 => scheduleAll s2 rest

/-- C8: scheduling an action at a virtual time strictly before the
current clock yields SchedulingViolation, and as part of a run it
aborts the whole run whatever requests follow (the scheduler never
retries it); scheduling at a time at or after the clock never raises
the error. -/
theorem c8_scheduling_violation (α : Type) (s : SchedState α) (t : Nat) (a : α) :
    (t < s.clock →
      schedule s t a = Except.error SimError.SchedulingViolation ∧
      ∀ rest : List (Nat × α),
        scheduleAll s ((t, a) :: rest) = Except.error SimError.SchedulingViolation) ∧
    (s.clock ≤ t →
      schedule s t a =
        Except.ok ⟨s.clock, s.nextSeq + 1, s.queue ++ [⟨t, s.nextSeq, a⟩]⟩) := by
  constructor
  · intro h
    have hs : schedule s t a = Except.error SimError.SchedulingViolation := by
      simp [schedule, h]
    exact ⟨hs, fun rest => by simp [scheduleAll, hs]⟩
  · intro h
    simp [schedule, Nat.not_lt.mpr h]

/-- A concrete scheduler state with the virtual clock at t = 5 s. -/
def schedStateDemo : SchedState LinkAction := ⟨5000, 0, []⟩

/-- Witness for C8: with the clock at 5 s, scheduling at 4 s is a
SchedulingViolation and aborts a run, while scheduling at 5 s
succeeds. -/
theorem c8_witness :
    schedule schedStateDemo 4000 LinkAction.disable
      = Except.error SimError.SchedulingViolation ∧
    scheduleAll schedStateDemo [(4000, LinkAction.disable), (9000, LinkAction.enable)]
      = Except.error SimError.SchedulingViolation ∧
    schedule schedStateDemo 5000 LinkAction.enable
      = Except.ok ⟨5000, 1, [⟨5000, 0, LinkAction.enable⟩]⟩ :=
  ⟨((c8_scheduling_violation LinkAction schedStateDemo 4000 LinkAction.disable).1
      (by decide)).1,
   ((c8_scheduling_violation LinkAction schedStateDemo 4000 LinkAction.disable).1
      (by decide)).2 [(9000, LinkAction.enable)],
   (c8_scheduling_violation LinkAction schedStateDemo 5000 LinkAction.enable).2
      (by decide)⟩
